import Mathlib

/-!
Verification of the discount/pricing optimization engine and logistics model of
the LastMile backend (`src/routes/logistics.js`), shallowly embedded in Lean 4.

JavaScript numbers are modelled as exact rationals (`ℚ`).  A JavaScript
division whose denominator is zero produces a non-finite value (`NaN` or
`±Infinity`); where that can happen the embedding returns `Option ℚ`, with
`none` standing for the non-finite result.  `Math.random()` is modelled by an
explicit oracle `rand : ℕ → Fin n → ℚ` giving, for each fallback attempt, the
vector of values drawn in `[0,1)`.  Parallel input arrays of equal length are
modelled as functions `Fin n → ℚ`.
-/

namespace LastMile

/-- Embedding of `calculateTrucksRequired` (logistics.js lines 10-32): a single
loop accumulates `totalVolume` and `totalWeight`, then the result is
`Math.max(Math.ceil(totalVolume / truckVolume), Math.ceil(totalWeight / truckWeight))`. -/
def calculateTrucksRequired {n : ℕ} (quantities volumePerUnit weightPerUnit : Fin n → ℚ)
    (truckVolume truckWeight : ℚ) : ℤ :=
  let totals := (List.finRange n).foldl
    (fun acc i => (acc.1 + quantities i * volumePerUnit i, acc.2 + quantities i * weightPerUnit i))
    (0, 0)
  max ⌈totals.1 / truckVolume⌉ ⌈totals.2 / truckWeight⌉

/-- The record returned by `calculateCO2Savings` (logistics.js lines 56-65). -/
structure CO2Result where
  numHouseholds : ℚ
  emissionIndividual : ℚ
  emissionBulk : ℚ
  emissionSaved : ℚ
  relativeReduction : Option ℚ
  numTrucks : ℚ
  indivDistanceKm : ℚ
  bulkDistanceKm : ℚ

/-- Embedding of `calculateCO2Savings` (logistics.js lines 37-66).  The JS code
computes `relativeReduction = (emissionSaved / emissionIndividual) * 100` with
no guard: when `emissionIndividual` is `0` the float result is non-finite
(`NaN` or `±Infinity`), modelled here as `none`. -/
def calculateCO2Savings (numHouseholds indivDistanceKm bulkDistanceKm
    emissionIndiv emissionTruck numTrucks : ℚ) : CO2Result :=
  let emissionIndividual := numHouseholds * indivDistanceKm * emissionIndiv
  let emissionBulk := numTrucks * bulkDistanceKm * emissionTruck
  let emissionSaved := emissionIndividual - emissionBulk
  let relativeReduction : Option ℚ :=
    if emissionIndividual = 0 then none else some (emissionSaved / emissionIndividual * 100)
  { numHouseholds := numHouseholds
    emissionIndividual := emissionIndividual
    emissionBulk := emissionBulk
    emissionSaved := emissionSaved
    relativeReduction := relativeReduction
    numTrucks := numTrucks
    indivDistanceKm := indivDistanceKm
    bulkDistanceKm := bulkDistanceKm }

/-- Embedding of `logisticMap` (logistics.js lines 71-73); every call site uses
the default chaos parameter `mu = 4.0`. -/
def logisticMap (c : ℚ) : ℚ := 4 * c * (1 - c)

/-- Embedding of `marginConstraint` (logistics.js lines 78-89): the loop sums
`quantities[i] * ((1 - targetMargin) * retailPrices[i] * (1 - discounts[i])
- supplierCosts[i] - operationalCosts[i])` over all indices and subtracts the
transport cost. -/
def marginConstraint {n : ℕ}
    (discounts quantities retailPrices supplierCosts operationalCosts : Fin n → ℚ)
    (targetMargin transportCost : ℚ) : ℚ :=
  (∑ i, quantities i * ((1 - targetMargin) * retailPrices i * (1 - discounts i)
    - supplierCosts i - operationalCosts i)) - transportCost

/-- Embedding of `objective` (logistics.js lines 94-100): the quantity-weighted
total discount. -/
def objective {n : ℕ} (discounts quantities : Fin n → ℚ) : ℚ :=
  ∑ i, quantities i * discounts i

/-- Embedding of `clamp` (logistics.js lines 167-169). -/
def clamp (x lower upper : ℚ) : ℚ := min (max x lower) upper

/-- The candidate discount vector built inside one iteration of the chaotic
phase (logistics.js lines 122-125): starting from the iteration's chaos value
`c1`, the `map` closure advances `c` once per product, so component `i` is
`maxDiscount` times the `(i+1)`-st iterate of the logistic map at `c1`. -/
def chaoticCandidate (n : ℕ) (maxDiscount c1 : ℚ) : Fin n → ℚ :=
  fun i => maxDiscount * logisticMap^[(i : ℕ) + 1] c1

/-- One iteration of the chaotic-phase loop (logistics.js lines 118-137),
acting on the state `(c, bestDiscounts)`.  The JS pair
`(bestDiscounts, bestObjectiveValue)` is represented by the option alone,
since `bestObjectiveValue` is `-Infinity` exactly while `bestDiscounts` is
`null` and equals the best vector's objective otherwise.  After the iteration
`c` has been advanced `1 + n` times. -/
def chaoticIter {n : ℕ} (maxDiscount : ℚ)
    (quantities retailPrices supplierCosts operationalCosts : Fin n → ℚ)
    (targetMargin transportCost : ℚ)
    (st : ℚ × Option (Fin n → ℚ)) (_k : ℕ) : ℚ × Option (Fin n → ℚ) :=
  let c1 := logisticMap st.1
  let discounts := chaoticCandidate n maxDiscount c1
  let cNext := logisticMap^[n] c1
  match st.2 with
  | none =>
      if 0 ≤ marginConstraint discounts quantities retailPrices supplierCosts operationalCosts
          targetMargin transportCost
      then (cNext, some discounts) else (cNext, none)
  | some best =>
      if 0 ≤ marginConstraint discounts quantities retailPrices supplierCosts operationalCosts
            targetMargin transportCost
          ∧ objective best quantities < objective discounts quantities
      then (cNext, some discounts) else (cNext, some best)

/-- The best feasible vector found by the chaotic phase (logistics.js lines
106-137), `c` starting at `0.7`. -/
def chaoticBest {n : ℕ} (numIterations : ℕ) (maxDiscount : ℚ)
    (quantities retailPrices supplierCosts operationalCosts : Fin n → ℚ)
    (targetMargin transportCost : ℚ) : Option (Fin n → ℚ) :=
  ((List.range numIterations).foldl
    (chaoticIter maxDiscount quantities retailPrices supplierCosts operationalCosts
      targetMargin transportCost)
    (7/10, none)).2

/-- The random vector of fallback attempt `attempt` (logistics.js line 144):
each component is `Math.random() * 0.05`, with the random draw supplied by the
oracle `rand`. -/
def smallVec {n : ℕ} (rand : ℕ → Fin n → ℚ) (attempt : ℕ) : Fin n → ℚ :=
  fun i => rand attempt i * (5/100)

/-- The 100-attempt minimal-discount fallback loop (logistics.js lines
143-150), returning the first feasible random vector, `none` if every attempt
is infeasible.  `fuel` counts the remaining attempts. -/
def randomFallback {n : ℕ}
    (quantities retailPrices supplierCosts operationalCosts : Fin n → ℚ)
    (targetMargin transportCost : ℚ) (rand : ℕ → Fin n → ℚ) :
    ℕ → ℕ → Option (Fin n → ℚ)
  | _, 0 => none
  | attempt, fuel + 1 =>
      let smallDiscounts := smallVec rand attempt
      if 0 ≤ marginConstraint smallDiscounts quantities retailPrices supplierCosts
          operationalCosts targetMargin transportCost
      then some smallDiscounts
      else randomFallback quantities retailPrices supplierCosts operationalCosts
        targetMargin transportCost rand (attempt + 1) fuel

/-- Embedding of `chaoticInitialization` (logistics.js lines 105-162): the
chaotic phase, then — only when it found nothing — the 100-attempt random
fallback, then the all-zero vector, and finally `null` (`none`). -/
def chaoticInitialization {n : ℕ} (numIterations : ℕ) (maxDiscount : ℚ)
    (quantities retailPrices supplierCosts operationalCosts : Fin n → ℚ)
    (targetMargin transportCost : ℚ) (rand : ℕ → Fin n → ℚ) : Option (Fin n → ℚ) :=
  match chaoticBest numIterations maxDiscount quantities retailPrices supplierCosts
      operationalCosts targetMargin transportCost with
  | some bestDiscounts => some bestDiscounts
  | none =>
      match randomFallback quantities retailPrices supplierCosts operationalCosts
          targetMargin transportCost rand 0 100 with
      | some smallDiscounts => some smallDiscounts
      | none =>
          if 0 ≤ marginConstraint (fun _ => 0) quantities retailPrices supplierCosts
              operationalCosts targetMargin transportCost
          then some (fun _ => 0) else none

/-- One coordinate probe of the pattern-search sweep (logistics.js lines
183-213), acting on the state `(Y, improved)`: try `+delta[i]` clamped to
`[0, maxDiscount]`; if that is feasible and strictly improves the objective,
accept it (the JS `continue` skips the negative probe); otherwise try
`-delta[i]` the same way; otherwise leave the state unchanged. -/
def innerStep {n : ℕ}
    (quantities retailPrices supplierCosts operationalCosts : Fin n → ℚ)
    (targetMargin maxDiscount transportCost : ℚ) (delta : Fin n → ℚ)
    (st : (Fin n → ℚ) × Bool) (i : Fin n) : (Fin n → ℚ) × Bool :=
  let Y := st.1
  let fBase := objective Y quantities
  let YPos := Function.update Y i (clamp (Y i + delta i) 0 maxDiscount)
  if 0 ≤ marginConstraint YPos quantities retailPrices supplierCosts operationalCosts
      targetMargin transportCost ∧ fBase < objective YPos quantities
  then (YPos, true)
  else
    let YNeg := Function.update Y i (clamp (Y i - delta i) 0 maxDiscount)
    if 0 ≤ marginConstraint YNeg quantities retailPrices supplierCosts operationalCosts
        targetMargin transportCost ∧ fBase < objective YNeg quantities
    then (YNeg, true)
    else st

/-- One iteration of the pattern-search outer loop (logistics.js lines
179-239), returning the new `discounts` and the new `delta`: a full coordinate
sweep starting from `(discounts, improved := false)`; if some coordinate
improved, the pattern (extrapolation) move `2*Y[i] - discounts[i]` clamped to
bounds, accepted only when feasible and strictly better than `Y`; otherwise
all step sizes are halved. -/
def patternStep {n : ℕ}
    (quantities retailPrices supplierCosts operationalCosts : Fin n → ℚ)
    (targetMargin maxDiscount transportCost : ℚ)
    (discounts delta : Fin n → ℚ) : (Fin n → ℚ) × (Fin n → ℚ) :=
  let sweep := (List.finRange n).foldl
    (innerStep quantities retailPrices supplierCosts operationalCosts targetMargin
      maxDiscount transportCost delta)
    (discounts, false)
  let Y := sweep.1
  if sweep.2 then
    let XNew := fun i => clamp (2 * Y i - discounts i) 0 maxDiscount
    if 0 ≤ marginConstraint XNew quantities retailPrices supplierCosts operationalCosts
        targetMargin transportCost
        ∧ objective Y quantities < objective XNew quantities
    then (XNew, delta) else (Y, delta)
  else (discounts, fun i => delta i / 2)

/-- Models `Math.max(...delta)` (logistics.js line 242); for an empty spread
JS gives `-Infinity`, modelled by `⊥` in `WithBot ℚ`. -/
def maxDelta {n : ℕ} (delta : Fin n → ℚ) : WithBot ℚ :=
  Finset.univ.sup fun i => ((delta i : ℚ) : WithBot ℚ)

/-- The fuelled pattern-search loop (logistics.js lines 179-246): run
`patternStep`, stop returning the current vector once `max(delta) < epsilon`,
otherwise continue with the remaining iteration budget. -/
def patternSearchAux {n : ℕ}
    (quantities retailPrices supplierCosts operationalCosts : Fin n → ℚ)
    (targetMargin maxDiscount transportCost epsilon : ℚ) :
    ℕ → (Fin n → ℚ) → (Fin n → ℚ) → (Fin n → ℚ)
  | 0, discounts, _ => discounts
  | fuel + 1, discounts, delta =>
      let p := patternStep quantities retailPrices supplierCosts operationalCosts
        targetMargin maxDiscount transportCost discounts delta
      if maxDelta p.2 < (epsilon : WithBot ℚ) then p.1
      else patternSearchAux quantities retailPrices supplierCosts operationalCosts
        targetMargin maxDiscount transportCost epsilon fuel p.1 p.2

/-- Embedding of `patternSearch` (logistics.js lines 174-249): all step sizes
start at `0.05`; the route invokes it with the defaults `epsilon = 1e-4` and
`maxIterations = 1000`. -/
def patternSearch {n : ℕ} (initialDiscounts : Fin n → ℚ)
    (quantities retailPrices supplierCosts operationalCosts : Fin n → ℚ)
    (targetMargin maxDiscount transportCost epsilon : ℚ) (maxIterations : ℕ) : Fin n → ℚ :=
  patternSearchAux quantities retailPrices supplierCosts operationalCosts targetMargin
    maxDiscount transportCost epsilon maxIterations initialDiscounts (fun _ => 5/100)

/-- The fields of the success response assembled by the optimize route
(logistics.js lines 607-667): per-product discount/final price/profit, the
portfolio totals, the logistics block and the emissions block. -/
structure OptimizeResponse (n : ℕ) where
  discount : Fin n → ℚ
  finalPrice : Fin n → ℚ
  profit : Fin n → ℚ
  totalRevenue : ℚ
  totalProfit : ℚ
  finalMargin : ℚ
  transportCost : ℚ
  targetMargin : ℚ
  maxDiscount : ℚ
  numTrucks : ℤ
  distanceKm : ℚ
  costPerKm : ℚ
  totalVolume : ℚ
  totalWeight : ℚ
  emissions : CO2Result

/-- The final price/profit/margin computation and response assembly of the
optimize route (logistics.js lines 607-667), applied to the vector produced by
the search stages.  The emissions call (lines 627-631) passes only
`numHouseholds`, `bulkDistanceKm = distanceKm` and `numTrucks`, leaving the
other `calculateCO2Savings` arguments at their defaults. -/
def buildResult {n : ℕ}
    (optimalDiscounts quantities retailPrices supplierCosts operationalCosts
      volumePerUnit weightPerUnit : Fin n → ℚ)
    (targetMargin maxDiscount distanceKm costPerKm numHouseholds : ℚ)
    (numTrucks : ℤ) (transportCost : ℚ) : OptimizeResponse n :=
  let finalPrices := fun i => retailPrices i * (1 - optimalDiscounts i)
  let finalProfits := fun i =>
    (finalPrices i - supplierCosts i - operationalCosts i) * quantities i
  let totalProfit := ∑ i, finalProfits i
  let totalRevenue := ∑ i, finalPrices i * quantities i
  let finalMargin := if 0 < totalRevenue then totalProfit / totalRevenue else 0
  { discount := optimalDiscounts
    finalPrice := finalPrices
    profit := finalProfits
    totalRevenue := totalRevenue
    totalProfit := totalProfit
    finalMargin := finalMargin
    transportCost := transportCost
    targetMargin := targetMargin
    maxDiscount := maxDiscount
    numTrucks := numTrucks
    distanceKm := distanceKm
    costPerKm := costPerKm
    totalVolume := ∑ i, quantities i * volumePerUnit i
    totalWeight := ∑ i, quantities i * weightPerUnit i
    emissions := calculateCO2Savings numHouseholds 4 distanceKm (18/100) (55/100)
      (numTrucks : ℚ) }

/-- Models the advisory `console.warn` of logistics.js lines 617-623: the
warning is emitted (to the server log only) exactly when
`finalMargin < targetMargin * 0.95`. -/
def consoleWarnedLowMargin (finalMargin targetMargin : ℚ) : Bool :=
  decide (finalMargin < targetMargin * (95/100))

/-- Top-level keys of the JSON result object (logistics.js lines 647-667). -/
def resultKeys : List String := ["success", "optimization", "logistics", "emissions"]

/-- Keys of the `optimization` sub-object (logistics.js lines 649-657). -/
def optimizationKeys : List String :=
  ["productDetails", "totalRevenue", "totalProfit", "finalMargin", "transportCost",
   "targetMargin", "maxDiscount"]

/-- Keys of the `logistics` sub-object (logistics.js lines 658-665). -/
def logisticsKeys : List String :=
  ["numTrucks", "distanceKm", "costPerKm", "totalTransportCost", "totalVolume",
   "totalWeight"]

/-- Keys of each `productDetails` entry (logistics.js lines 634-644). -/
def productDetailKeys : List String :=
  ["id", "name", "retailPrice", "supplierCost", "operationalCost", "discount",
   "finalPrice", "quantity", "profit"]

/-- Keys of the `emissions` sub-object (logistics.js lines 56-65). -/
def emissionsKeys : List String :=
  ["numHouseholds", "emissionIndividual", "emissionBulk", "emissionSaved",
   "relativeReduction", "numTrucks", "indivDistanceKm", "bulkDistanceKm"]

/-- Whether any key anywhere in the success response mentions a warning. -/
def responseMentionsWarning : Bool :=
  (resultKeys ++ optimizationKeys ++ logisticsKeys ++ productDetailKeys ++ emissionsKeys).any
    fun k => k = "warning" || k = "warnings" || k = "warn" || k = "marginWarning"

/-- The three outcomes of the optimize route's computational core: the
zero-discount infeasibility report (lines 537-549), the initialization-failure
report (lines 566-578), or the success response. -/
inductive OptimizeOutcome (n : ℕ) where
  | infeasibleAtZero : OptimizeOutcome n
  | noFeasibleInit : OptimizeOutcome n
  | success : OptimizeResponse n → OptimizeOutcome n

/-- The computational core of `POST /api/logistics/optimize` (logistics.js
lines 501-671) after validation and product lookup: fleet sizing, transport
cost, the zero-discount feasibility gate, the two search stages (the route
fixes `numIterStage1 = 1000` and uses `patternSearch`'s defaults
`epsilon = 1e-4`, `maxIterations = 1000`), and the response assembly. -/
def optimizeCore {n : ℕ}
    (quantities volumePerUnit weightPerUnit retailPrices supplierCosts
      operationalCosts : Fin n → ℚ)
    (targetMargin maxDiscount distanceKm costPerKm numHouseholds truckVolume
      truckWeight : ℚ)
    (rand : ℕ → Fin n → ℚ) : OptimizeOutcome n :=
  let numTrucks := calculateTrucksRequired quantities volumePerUnit weightPerUnit
    truckVolume truckWeight
  let transportCost := (numTrucks : ℚ) * costPerKm * distanceKm
  if marginConstraint (fun _ => 0) quantities retailPrices supplierCosts operationalCosts
      targetMargin transportCost < 0
  then OptimizeOutcome.infeasibleAtZero
  else
    match chaoticInitialization 1000 maxDiscount quantities retailPrices supplierCosts
        operationalCosts targetMargin transportCost rand with
    | none => OptimizeOutcome.noFeasibleInit
    | some initialDiscounts =>
        OptimizeOutcome.success (buildResult
          (patternSearch initialDiscounts quantities retailPrices supplierCosts
            operationalCosts targetMargin maxDiscount transportCost (1/10000) 1000)
          quantities retailPrices supplierCosts operationalCosts volumePerUnit weightPerUnit
          targetMargin maxDiscount distanceKm costPerKm numHouseholds numTrucks
          transportCost)

/-- A fold preserves any invariant preserved by its step function. -/
lemma foldl_invariant {α β : Type} (f : β → α → β) (P : β → Prop)
    (hf : ∀ b a, P b → P (f b a)) : ∀ (l : List α) (b : β), P b → P (l.foldl f b) := by
  intro l
  induction l with
  | nil => intro b hb; exact hb
  | cons a l ih => intro b hb; exact ih _ (hf b a hb)

/-- A fold that accumulates two running sums computes the two list sums. -/
lemma foldl_pair_sum {α : Type} (f g : α → ℚ) :
    ∀ (l : List α) (p : ℚ × ℚ),
      l.foldl (fun acc x => (acc.1 + f x, acc.2 + g x)) p
        = (p.1 + (l.map f).sum, p.2 + (l.map g).sum) := by
  intro l
  induction l with
  | nil => intro p; simp
  | cons a l ih =>
      intro p
      simp only [List.foldl_cons, ih, List.map_cons, List.sum_cons]
      exact Prod.ext (by dsimp; ring) (by dsimp; ring)

/-- The two running sums of `calculateTrucksRequired` compute the total volume
and total weight. -/
lemma calculateTrucksRequired_eq {n : ℕ}
    (quantities volumePerUnit weightPerUnit : Fin n → ℚ) (truckVolume truckWeight : ℚ) :
    calculateTrucksRequired quantities volumePerUnit weightPerUnit truckVolume truckWeight
      = max ⌈(∑ i, quantities i * volumePerUnit i) / truckVolume⌉
          ⌈(∑ i, quantities i * weightPerUnit i) / truckWeight⌉ := by
  unfold calculateTrucksRequired
  rw [foldl_pair_sum (fun i => quantities i * volumePerUnit i)
    (fun i => quantities i * weightPerUnit i) (List.finRange n) (0, 0)]
  simp [Fin.sum_univ_def]

/-- C3: for non-negative quantities, positive per-unit volumes and weights and
positive truck capacities, `calculateTrucksRequired` returns exactly
`max(ceil(totalVolume/truckVolume), ceil(totalWeight/truckWeight))`, and an
order with all-zero totals yields `0` trucks rather than an error. -/
theorem calculateTrucksRequired_max_ceil {n : ℕ}
    (quantities volumePerUnit weightPerUnit : Fin n → ℚ) (truckVolume truckWeight : ℚ)
    (hq : ∀ i, 0 ≤ quantities i) (hv : ∀ i, 0 < volumePerUnit i)
    (hw : ∀ i, 0 < weightPerUnit i) (htv : 0 < truckVolume) (htw : 0 < truckWeight) :
    calculateTrucksRequired quantities volumePerUnit weightPerUnit truckVolume truckWeight
      = max ⌈(∑ i, quantities i * volumePerUnit i) / truckVolume⌉
          ⌈(∑ i, quantities i * weightPerUnit i) / truckWeight⌉
    ∧ ((∀ i, quantities i = 0) →
        calculateTrucksRequired quantities volumePerUnit weightPerUnit truckVolume truckWeight
          = 0) := by
  refine ⟨calculateTrucksRequired_eq _ _ _ _ _, fun hz => ?_⟩
  rw [calculateTrucksRequired_eq]
  have h1 : (∑ i, quantities i * volumePerUnit i) = 0 :=
    Finset.sum_eq_zero fun i _ => by rw [hz i]; ring
  have h2 : (∑ i, quantities i * weightPerUnit i) = 0 :=
    Finset.sum_eq_zero fun i _ => by rw [hz i]; ring
  rw [h1, h2]
  norm_num

/-- Witness: the spec's worked example, quantities=[10], volumePerUnit=[0.02],
weightPerUnit=[1.5], truckVolume=15, truckWeight=3000. -/
theorem calculateTrucksRequired_max_ceil_witness :
    calculateTrucksRequired (fun _ : Fin 1 => (10:ℚ)) (fun _ => 1/50) (fun _ => 3/2) 15 3000
      = max ⌈(∑ _i : Fin 1, (10:ℚ) * (1/50)) / 15⌉ ⌈(∑ _i : Fin 1, (10:ℚ) * (3/2)) / 3000⌉ :=
  (calculateTrucksRequired_max_ceil (fun _ : Fin 1 => (10:ℚ)) (fun _ => 1/50) (fun _ => 3/2)
      15 3000 (fun _ => by norm_num) (fun _ => by norm_num) (fun _ => by norm_num)
      (by norm_num) (by norm_num)).1

/-- The margin constraint differs between two discount vectors by the weighted
sum of the coordinate differences (it is affine in the discounts). -/
lemma marginConstraint_sub {n : ℕ}
    (d1 d2 quantities retailPrices supplierCosts operationalCosts : Fin n → ℚ)
    (targetMargin transportCost : ℚ) :
    marginConstraint d1 quantities retailPrices supplierCosts operationalCosts
        targetMargin transportCost
      - marginConstraint d2 quantities retailPrices supplierCosts operationalCosts
        targetMargin transportCost
      = ∑ i, quantities i * (1 - targetMargin) * retailPrices i * (d2 i - d1 i) := by
  unfold marginConstraint
  rw [sub_sub_sub_cancel_right, ← Finset.sum_sub_distrib]
  exact Finset.sum_congr rfl fun i _ => by ring

/-- C4 (amended): for positive quantities and retail prices and
`targetMargin ∈ [0,1)`, increasing one discount coordinate while holding the
others fixed strictly decreases `marginConstraint`. -/
theorem marginConstraint_strict_anti {n : ℕ}
    (d quantities retailPrices supplierCosts operationalCosts : Fin n → ℚ)
    (targetMargin transportCost : ℚ) (i : Fin n) (t t' : ℚ)
    (hq : ∀ j, 0 < quantities j) (hr : ∀ j, 0 < retailPrices j)
    (htm0 : 0 ≤ targetMargin) (htm1 : targetMargin < 1) (ht : t < t') :
    marginConstraint (Function.update d i t') quantities retailPrices supplierCosts
        operationalCosts targetMargin transportCost
      < marginConstraint (Function.update d i t) quantities retailPrices supplierCosts
        operationalCosts targetMargin transportCost := by
  have hdiff := marginConstraint_sub (Function.update d i t) (Function.update d i t')
    quantities retailPrices supplierCosts operationalCosts targetMargin transportCost
  have hsum : ∑ j, quantities j * (1 - targetMargin) * retailPrices j
      * (Function.update d i t' j - Function.update d i t j)
      = quantities i * (1 - targetMargin) * retailPrices i * (t' - t) := by
    rw [Fintype.sum_eq_single i]
    · rw [Function.update_same, Function.update_same]
    · intro j hj
      rw [Function.update_noteq hj, Function.update_noteq hj]
      ring
  have hpos : 0 < quantities i * (1 - targetMargin) * retailPrices i * (t' - t) := by
    have h1 : 0 < 1 - targetMargin := by linarith
    have h2 : 0 < t' - t := by linarith
    exact mul_pos (mul_pos (mul_pos (hq i) h1) (hr i)) h2
  linarith [hdiff, hsum]

/-- Witness: a concrete strict decrease, n=1, quantities=[2], retailPrices=[3],
targetMargin=1/2, raising the discount from 0 to 1/4. -/
theorem marginConstraint_strict_anti_witness :
    marginConstraint (Function.update (fun _ : Fin 1 => (0:ℚ)) 0 (1/4)) (fun _ => 2)
        (fun _ => 3) (fun _ => 1) (fun _ => 0) (1/2) 5
      < marginConstraint (Function.update (fun _ : Fin 1 => (0:ℚ)) 0 0) (fun _ => 2)
        (fun _ => 3) (fun _ => 1) (fun _ => 0) (1/2) 5 :=
  marginConstraint_strict_anti (fun _ : Fin 1 => (0:ℚ)) (fun _ => 2) (fun _ => 3)
    (fun _ => 1) (fun _ => 0) (1/2) 5 0 0 (1/4) (fun _ => by norm_num) (fun _ => by norm_num)
    (by norm_num) (by norm_num) (by norm_num)

/-- C4 counterexample: at `targetMargin = 1` (inside the claim's range `[0,1]`),
with quantities=[1], retailPrices=[1], increasing the discount from 0 to 1/2
does not strictly decrease `marginConstraint` (both values are 0). -/
theorem marginConstraint_not_strict_at_margin_one :
    ((0:ℚ) < 1 ∧ (0:ℚ) ≤ 1 ∧ (1:ℚ) ≤ 1 ∧ (0:ℚ) < 1/2) ∧
    ¬ marginConstraint (fun _ : Fin 1 => (1/2:ℚ)) (fun _ => 1) (fun _ => 1) (fun _ => 0)
        (fun _ => 0) 1 0
      < marginConstraint (fun _ : Fin 1 => (0:ℚ)) (fun _ => 1) (fun _ => 1) (fun _ => 0)
        (fun _ => 0) 1 0 := by
  refine ⟨⟨by norm_num, by norm_num, le_refl _, by norm_num⟩, ?_⟩
  norm_num [marginConstraint, Fin.sum_univ_one]

/-- C7: called with `numHouseholds = 0` (other arguments at their defaults),
`calculateCO2Savings` divides by a zero `emissionIndividual`, so the JS float
result is non-finite (modelled `none`) rather than the `0` the spec requires. -/
theorem calculateCO2Savings_zero_households :
    (calculateCO2Savings 0 4 10 (18/100) (55/100) 1).relativeReduction = none ∧
    (calculateCO2Savings 0 4 10 (18/100) (55/100) 1).relativeReduction ≠ some 0 := by
  constructor <;> simp [calculateCO2Savings]

/-- C8: `calculateCO2Savings` computes the individual emissions, bulk
emissions, their difference and the relative reduction by the stated formulas,
and on the default inputs (50 households, 4 km individual trips at 0.18 kg/km,
one truck driving 10 km at 0.55 kg/km) returns 36, 5.5, 30.5 and ≈84.7%. -/
theorem calculateCO2Savings_formulas_and_defaults :
    (∀ nh idk bdk ei et nt : ℚ,
      (calculateCO2Savings nh idk bdk ei et nt).emissionIndividual = nh * idk * ei ∧
      (calculateCO2Savings nh idk bdk ei et nt).emissionBulk = nt * bdk * et ∧
      (calculateCO2Savings nh idk bdk ei et nt).emissionSaved
        = nh * idk * ei - nt * bdk * et ∧
      (calculateCO2Savings nh idk bdk ei et nt).relativeReduction
        = if nh * idk * ei = 0 then none
          else some ((nh * idk * ei - nt * bdk * et) / (nh * idk * ei) * 100)) ∧
    ((calculateCO2Savings 50 4 10 (18/100) (55/100) 1).emissionIndividual = 36 ∧
     (calculateCO2Savings 50 4 10 (18/100) (55/100) 1).emissionBulk = 11/2 ∧
     (calculateCO2Savings 50 4 10 (18/100) (55/100) 1).emissionSaved = 61/2 ∧
     (calculateCO2Savings 50 4 10 (18/100) (55/100) 1).relativeReduction = some (1525/18) ∧
     (847/10 : ℚ) < 1525/18 ∧ (1525/18 : ℚ) < 848/10) := by
  constructor
  · intro nh idk bdk ei et nt
    exact ⟨rfl, rfl, rfl, rfl⟩
  · norm_num [calculateCO2Savings]

/-- The fallback loop fails exactly when every remaining attempt is
infeasible. -/
lemma randomFallback_eq_none_iff {n : ℕ}
    (quantities retailPrices supplierCosts operationalCosts : Fin n → ℚ)
    (targetMargin transportCost : ℚ) (rand : ℕ → Fin n → ℚ) :
    ∀ (fuel attempt : ℕ),
      randomFallback quantities retailPrices supplierCosts operationalCosts targetMargin
          transportCost rand attempt fuel = none ↔
        ∀ b, attempt ≤ b → b < attempt + fuel →
          marginConstraint (smallVec rand b) quantities retailPrices supplierCosts
            operationalCosts targetMargin transportCost < 0 := by
  intro fuel
  induction fuel with
  | zero =>
      intro attempt
      constructor
      · intro _ b h1 h2; omega
      · intro _; rfl
  | succ fuel ih =>
      intro attempt
      rw [randomFallback]
      by_cases h : 0 ≤ marginConstraint (smallVec rand attempt) quantities retailPrices
          supplierCosts operationalCosts targetMargin transportCost
      · rw [if_pos h]
        constructor
        · intro hc; exact absurd hc (by simp)
        · intro hall
          exact absurd h (not_le.mpr (hall attempt (le_refl _) (by omega)))
      · rw [if_neg h, ih (attempt + 1)]
        push_neg at h
        constructor
        · intro hall b hb1 hb2
          rcases Nat.eq_or_lt_of_le hb1 with hb | hb
          · rw [← hb]; exact h
          · exact hall b hb (by omega)
        · intro hall b hb1 hb2
          exact hall b (by omega) (by omega)

/-- The fallback loop returns the first feasible attempt. -/
lemma randomFallback_eq_some_first {n : ℕ}
    (quantities retailPrices supplierCosts operationalCosts : Fin n → ℚ)
    (targetMargin transportCost : ℚ) (rand : ℕ → Fin n → ℚ) :
    ∀ (fuel attempt a : ℕ), attempt ≤ a → a < attempt + fuel →
      (∀ b, attempt ≤ b → b < a →
        marginConstraint (smallVec rand b) quantities retailPrices supplierCosts
          operationalCosts targetMargin transportCost < 0) →
      0 ≤ marginConstraint (smallVec rand a) quantities retailPrices supplierCosts
        operationalCosts targetMargin transportCost →
      randomFallback quantities retailPrices supplierCosts operationalCosts targetMargin
        transportCost rand attempt fuel = some (smallVec rand a) := by
  intro fuel
  induction fuel with
  | zero => intro attempt a h1 h2; omega
  | succ fuel ih =>
      intro attempt a h1 h2 hbefore hfeas
      rw [randomFallback]
      rcases Nat.eq_or_lt_of_le h1 with hb | hb
      · rw [← hb] at hfeas ⊢
        rw [if_pos hfeas]
      · rw [if_neg (not_le.mpr (hbefore attempt (le_refl _) hb))]
        exact ih (attempt + 1) a hb (by omega) (fun b hb1 hb2 => hbefore b (by omega) hb2) hfeas

/-- C6: `chaoticInitialization` returns the no-solution sentinel `none` exactly
when the chaotic phase found nothing, all 100 random fallback attempts are
infeasible and the all-zero vector is infeasible; when the chaotic phase found
nothing it returns the first feasible random attempt, and failing that the
all-zero vector whenever that is feasible. -/
theorem chaoticInitialization_fallback_policy {n : ℕ}
    (numIterations : ℕ) (maxDiscount : ℚ)
    (quantities retailPrices supplierCosts operationalCosts : Fin n → ℚ)
    (targetMargin transportCost : ℚ) (rand : ℕ → Fin n → ℚ) :
    (chaoticInitialization numIterations maxDiscount quantities retailPrices supplierCosts
        operationalCosts targetMargin transportCost rand = none ↔
      (chaoticBest numIterations maxDiscount quantities retailPrices supplierCosts
          operationalCosts targetMargin transportCost = none ∧
        (∀ a, a < 100 → marginConstraint (smallVec rand a) quantities retailPrices
          supplierCosts operationalCosts targetMargin transportCost < 0) ∧
        marginConstraint (fun _ => 0) quantities retailPrices supplierCosts operationalCosts
          targetMargin transportCost < 0)) ∧
    (∀ a, a < 100 →
      chaoticBest numIterations maxDiscount quantities retailPrices supplierCosts
        operationalCosts targetMargin transportCost = none →
      (∀ b, b < a → marginConstraint (smallVec rand b) quantities retailPrices supplierCosts
        operationalCosts targetMargin transportCost < 0) →
      0 ≤ marginConstraint (smallVec rand a) quantities retailPrices supplierCosts
        operationalCosts targetMargin transportCost →
      chaoticInitialization numIterations maxDiscount quantities retailPrices supplierCosts
        operationalCosts targetMargin transportCost rand = some (smallVec rand a)) ∧
    (chaoticBest numIterations maxDiscount quantities retailPrices supplierCosts
        operationalCosts targetMargin transportCost = none →
      (∀ a, a < 100 → marginConstraint (smallVec rand a) quantities retailPrices
        supplierCosts operationalCosts targetMargin transportCost < 0) →
      0 ≤ marginConstraint (fun _ => 0) quantities retailPrices supplierCosts
        operationalCosts targetMargin transportCost →
      chaoticInitialization numIterations maxDiscount quantities retailPrices supplierCosts
        operationalCosts targetMargin transportCost rand = some (fun _ => 0)) := by
  cases hbest : chaoticBest numIterations maxDiscount quantities retailPrices supplierCosts
      operationalCosts targetMargin transportCost with
  | some b =>
      refine ⟨?_, ?_, ?_⟩
      · simp [chaoticInitialization, hbest]
      · intro a _ hc; exact absurd hc (by simp)
      · intro hc; exact absurd hc (by simp)
  | none =>
      have hunfold : chaoticInitialization numIterations maxDiscount quantities retailPrices
          supplierCosts operationalCosts targetMargin transportCost rand
          = match randomFallback quantities retailPrices supplierCosts operationalCosts
              targetMargin transportCost rand 0 100 with
            | some smallDiscounts => some smallDiscounts
            | none =>
                if 0 ≤ marginConstraint (fun _ => 0) quantities retailPrices supplierCosts
                    operationalCosts targetMargin transportCost
                then some (fun _ => 0) else none := by
        rw [chaoticInitialization, hbest]
      cases hrf : randomFallback quantities retailPrices supplierCosts operationalCosts
          targetMargin transportCost rand 0 100 with
      | some v =>
          rw [hrf] at hunfold
          refine ⟨?_, ?_, ?_⟩
          · rw [hunfold]
            constructor
            · intro hc; exact absurd hc (by simp)
            · rintro ⟨-, hall, -⟩
              have : randomFallback quantities retailPrices supplierCosts operationalCosts
                  targetMargin transportCost rand 0 100 = none :=
                (randomFallback_eq_none_iff quantities retailPrices supplierCosts
                  operationalCosts targetMargin transportCost rand 100 0).mpr
                  (fun b _ hb2 => hall b (by omega))
              rw [hrf] at this; exact absurd this (by simp)
          · intro a ha _ hbefore hfeas
            have hsome := randomFallback_eq_some_first quantities retailPrices supplierCosts
              operationalCosts targetMargin transportCost rand 100 0 a (Nat.zero_le _)
              (by omega) (fun b _ hb2 => hbefore b hb2) hfeas
            rw [hrf] at hsome
            rw [hunfold, ← Option.some_inj.mp hsome]
          · intro _ hall _
            have : randomFallback quantities retailPrices supplierCosts operationalCosts
                targetMargin transportCost rand 0 100 = none :=
              (randomFallback_eq_none_iff quantities retailPrices supplierCosts
                operationalCosts targetMargin transportCost rand 100 0).mpr
                (fun b _ hb2 => hall b (by omega))
            rw [hrf] at this; exact absurd this (by simp)
      | none =>
          rw [hrf] at hunfold
          have hall : ∀ a, a < 100 → marginConstraint (smallVec rand a) quantities retailPrices
              supplierCosts operationalCosts targetMargin transportCost < 0 := by
            intro a ha
            exact ((randomFallback_eq_none_iff quantities retailPrices supplierCosts
              operationalCosts targetMargin transportCost rand 100 0).mp hrf) a
              (Nat.zero_le _) (by omega)
          refine ⟨?_, ?_, ?_⟩
          · rw [hunfold]
            by_cases hz : 0 ≤ marginConstraint (fun _ => 0) quantities retailPrices
                supplierCosts operationalCosts targetMargin transportCost
            · rw [if_pos hz]
              constructor
              · intro hc; exact absurd hc (by simp)
              · rintro ⟨-, -, hzneg⟩; linarith
            · rw [if_neg hz]
              exact ⟨fun _ => ⟨rfl, hall, by linarith [not_le.mp hz]⟩, fun _ => rfl⟩
          · intro a ha _ hbefore hfeas
            exact absurd hfeas (not_le.mpr (hall a ha))
          · intro _ _ hz
            rw [hunfold, if_pos hz]

/-- Witness for C6: with no chaotic iterations, a supplier cost that exceeds
the retail value and a zero random oracle, every fallback pass fails and the
sentinel `none` is returned. -/
theorem chaoticInitialization_fallback_policy_witness :
    chaoticInitialization (n := 1) 0 (1/2) (fun _ => 1) (fun _ => 1) (fun _ => 2) (fun _ => 0)
      0 0 (fun _ _ => 0) = none :=
  (chaoticInitialization_fallback_policy (n := 1) 0 (1/2) (fun _ => 1) (fun _ => 1)
    (fun _ => 2) (fun _ => 0) 0 0 (fun _ _ => 0)).1.mpr
    ⟨by simp [chaoticBest],
     fun a _ => by norm_num [marginConstraint, smallVec, Fin.sum_univ_one],
     by norm_num [marginConstraint, Fin.sum_univ_one]⟩

/-- The logistic map at `mu = 4` maps `[0,1]` into itself. -/
lemma logisticMap_mem (c : ℚ) (h0 : 0 ≤ c) (h1 : c ≤ 1) :
    0 ≤ logisticMap c ∧ logisticMap c ≤ 1 := by
  unfold logisticMap
  constructor
  · have h2 : 0 ≤ 1 - c := by linarith
    have := mul_nonneg (mul_nonneg (by norm_num : (0:ℚ) ≤ 4) h0) h2
    linarith
  · nlinarith [sq_nonneg (2 * c - 1)]

/-- Iterates of the logistic map stay in `[0,1]`. -/
lemma logisticMap_iterate_mem (k : ℕ) :
    ∀ c : ℚ, 0 ≤ c → c ≤ 1 → 0 ≤ logisticMap^[k] c ∧ logisticMap^[k] c ≤ 1 := by
  induction k with
  | zero => intro c h0 h1; simpa using ⟨h0, h1⟩
  | succ k ih =>
      intro c h0 h1
      rw [Function.iterate_succ_apply]
      exact ih _ (logisticMap_mem c h0 h1).1 (logisticMap_mem c h0 h1).2

/-- Every component of a chaotic candidate lies in `[0, maxDiscount]`. -/
lemma chaoticCandidate_mem {n : ℕ} (maxDiscount c1 : ℚ) (hmd : 0 ≤ maxDiscount)
    (h0 : 0 ≤ c1) (h1 : c1 ≤ 1) (i : Fin n) :
    0 ≤ chaoticCandidate n maxDiscount c1 i ∧ chaoticCandidate n maxDiscount c1 i ≤ maxDiscount := by
  unfold chaoticCandidate
  obtain ⟨ha, hb⟩ := logisticMap_iterate_mem ((i : ℕ) + 1) c1 h0 h1
  constructor
  · exact mul_nonneg hmd ha
  · calc maxDiscount * logisticMap^[(i : ℕ) + 1] c1 ≤ maxDiscount * 1 :=
        mul_le_mul_of_nonneg_left hb hmd
    _ = maxDiscount := mul_one _

/-- Along the chaotic phase, the chaos value stays in `[0,1]` and the best
vector found so far stays in the box `[0, maxDiscount]^n`. -/
lemma chaoticBest_mem {n : ℕ} (numIterations : ℕ) (maxDiscount : ℚ)
    (quantities retailPrices supplierCosts operationalCosts : Fin n → ℚ)
    (targetMargin transportCost : ℚ) (hmd : 0 ≤ maxDiscount)
    (b : Fin n → ℚ)
    (hb : chaoticBest numIterations maxDiscount quantities retailPrices supplierCosts
      operationalCosts targetMargin transportCost = some b) :
    ∀ i, 0 ≤ b i ∧ b i ≤ maxDiscount := by
  have key := foldl_invariant
    (chaoticIter maxDiscount quantities retailPrices supplierCosts operationalCosts
      targetMargin transportCost)
    (fun st => (0 ≤ st.1 ∧ st.1 ≤ 1) ∧
      ∀ v, st.2 = some v → ∀ i, 0 ≤ v i ∧ v i ≤ maxDiscount)
    ?_ (List.range numIterations) (7/10, none) ⟨⟨by norm_num, by norm_num⟩, by simp⟩
  · exact key.2 b hb
  · intro st k hst
    unfold chaoticIter
    have hc1 := logisticMap_mem st.1 hst.1.1 hst.1.2
    have hcand := chaoticCandidate_mem (n := n) maxDiscount (logisticMap st.1) hmd hc1.1 hc1.2
    have hcnext := logisticMap_iterate_mem n (logisticMap st.1) hc1.1 hc1.2
    dsimp only
    cases hst2 : st.2 with
    | none =>
        dsimp only
        split_ifs with h1
        · exact ⟨hcnext, fun v hv i => by rw [← Option.some_inj.mp hv]; exact hcand i⟩
        · exact ⟨hcnext, by simp⟩
    | some best =>
        dsimp only
        split_ifs with h1
        · exact ⟨hcnext, fun v hv i => by rw [← Option.some_inj.mp hv]; exact hcand i⟩
        · refine ⟨hcnext, fun v hv i => ?_⟩
          rw [← Option.some_inj.mp hv]
          exact hst.2 best hst2 i

/-- When the chaotic phase fails and the very first random fallback attempt is
feasible, `chaoticInitialization` returns that attempt's vector. -/
lemma chaoticInitialization_first_random {n : ℕ} (numIterations : ℕ) (maxDiscount : ℚ)
    (quantities retailPrices supplierCosts operationalCosts : Fin n → ℚ)
    (targetMargin transportCost : ℚ) (rand : ℕ → Fin n → ℚ)
    (hbest : chaoticBest numIterations maxDiscount quantities retailPrices supplierCosts
      operationalCosts targetMargin transportCost = none)
    (hfeas : 0 ≤ marginConstraint (smallVec rand 0) quantities retailPrices supplierCosts
      operationalCosts targetMargin transportCost) :
    chaoticInitialization numIterations maxDiscount quantities retailPrices supplierCosts
      operationalCosts targetMargin transportCost rand = some (smallVec rand 0) := by
  have hrf := randomFallback_eq_some_first quantities retailPrices supplierCosts
    operationalCosts targetMargin transportCost rand 100 0 0 (le_refl _) (by omega)
    (fun b hb1 hb2 => absurd hb2 (by omega)) hfeas
  rw [chaoticInitialization, hbest, hrf]

/-- A coordinate probe preserves feasibility and never lowers the objective
below any bound the current state satisfies. -/
lemma innerStep_feasible_mono {n : ℕ}
    (quantities retailPrices supplierCosts operationalCosts : Fin n → ℚ)
    (targetMargin maxDiscount transportCost B : ℚ) (delta : Fin n → ℚ)
    (st : (Fin n → ℚ) × Bool) (i : Fin n)
    (h : 0 ≤ marginConstraint st.1 quantities retailPrices supplierCosts operationalCosts
        targetMargin transportCost
      ∧ B ≤ objective st.1 quantities) :
    0 ≤ marginConstraint (innerStep quantities retailPrices supplierCosts operationalCosts
        targetMargin maxDiscount transportCost delta st i).1 quantities retailPrices
        supplierCosts operationalCosts targetMargin transportCost
    ∧ B ≤ objective (innerStep quantities retailPrices supplierCosts operationalCosts
        targetMargin maxDiscount transportCost delta st i).1 quantities := by
  unfold innerStep
  dsimp only
  split_ifs with h1 h2
  · exact ⟨h1.1, (h.2.trans_lt h1.2).le⟩
  · exact ⟨h2.1, (h.2.trans_lt h2.2).le⟩
  · exact h

/-- One outer iteration preserves feasibility and never lowers the
objective. -/
lemma patternStep_feasible_mono {n : ℕ}
    (quantities retailPrices supplierCosts operationalCosts : Fin n → ℚ)
    (targetMargin maxDiscount transportCost : ℚ) (discounts delta : Fin n → ℚ)
    (hd : 0 ≤ marginConstraint discounts quantities retailPrices supplierCosts
      operationalCosts targetMargin transportCost) :
    0 ≤ marginConstraint (patternStep quantities retailPrices supplierCosts operationalCosts
        targetMargin maxDiscount transportCost discounts delta).1 quantities retailPrices
        supplierCosts operationalCosts targetMargin transportCost
    ∧ objective discounts quantities
      ≤ objective (patternStep quantities retailPrices supplierCosts operationalCosts
          targetMargin maxDiscount transportCost discounts delta).1 quantities := by
  have hsweep := foldl_invariant
    (innerStep quantities retailPrices supplierCosts operationalCosts targetMargin
      maxDiscount transportCost delta)
    (fun st => 0 ≤ marginConstraint st.1 quantities retailPrices supplierCosts
        operationalCosts targetMargin transportCost
      ∧ objective discounts quantities ≤ objective st.1 quantities)
    (fun st i hst => innerStep_feasible_mono quantities retailPrices supplierCosts
      operationalCosts targetMargin maxDiscount transportCost _ delta st i hst)
    (List.finRange n) (discounts, false) ⟨hd, le_refl _⟩
  unfold patternStep
  dsimp only
  split_ifs with h1 h2
  · exact ⟨h2.1, hsweep.2.trans h2.2.le⟩
  · exact hsweep
  · exact ⟨hd, le_refl _⟩

/-- The whole pattern-search loop preserves feasibility and never lowers the
objective. -/
lemma patternSearchAux_feasible_mono {n : ℕ}
    (quantities retailPrices supplierCosts operationalCosts : Fin n → ℚ)
    (targetMargin maxDiscount transportCost epsilon : ℚ) :
    ∀ (fuel : ℕ) (discounts delta : Fin n → ℚ),
      0 ≤ marginConstraint discounts quantities retailPrices supplierCosts operationalCosts
        targetMargin transportCost →
      0 ≤ marginConstraint (patternSearchAux quantities retailPrices supplierCosts
          operationalCosts targetMargin maxDiscount transportCost epsilon fuel discounts
          delta) quantities retailPrices supplierCosts operationalCosts targetMargin
          transportCost
      ∧ objective discounts quantities
        ≤ objective (patternSearchAux quantities retailPrices supplierCosts operationalCosts
            targetMargin maxDiscount transportCost epsilon fuel discounts delta)
            quantities := by
  intro fuel
  induction fuel with
  | zero =>
      intro discounts delta hd
      rw [patternSearchAux]
      exact ⟨hd, le_refl _⟩
  | succ fuel ih =>
      intro discounts delta hd
      simp only [patternSearchAux]
      have hp := patternStep_feasible_mono quantities retailPrices supplierCosts
        operationalCosts targetMargin maxDiscount transportCost discounts delta hd
      split_ifs with h1
      · exact hp
      · have hrec := ih (patternStep quantities retailPrices supplierCosts operationalCosts
          targetMargin maxDiscount transportCost discounts delta).1
          (patternStep quantities retailPrices supplierCosts operationalCosts targetMargin
            maxDiscount transportCost discounts delta).2 hp.1
        exact ⟨hrec.1, hp.2.trans hrec.2⟩

/-- C1: for valid inputs (positive quantities and retail prices, `maxDiscount`
in `[0,1]`) and a feasible seed vector, `patternSearch` returns a vector that
is still feasible and whose objective is at least the seed's objective. -/
theorem patternSearch_feasible_monotone {n : ℕ} (initialDiscounts : Fin n → ℚ)
    (quantities retailPrices supplierCosts operationalCosts : Fin n → ℚ)
    (targetMargin maxDiscount transportCost epsilon : ℚ) (maxIterations : ℕ)
    (hq : ∀ i, 0 < quantities i) (hr : ∀ i, 0 < retailPrices i)
    (hmd0 : 0 ≤ maxDiscount) (hmd1 : maxDiscount ≤ 1)
    (hseed : 0 ≤ marginConstraint initialDiscounts quantities retailPrices supplierCosts
      operationalCosts targetMargin transportCost) :
    0 ≤ marginConstraint (patternSearch initialDiscounts quantities retailPrices
        supplierCosts operationalCosts targetMargin maxDiscount transportCost epsilon
        maxIterations) quantities retailPrices supplierCosts operationalCosts targetMargin
        transportCost
    ∧ objective initialDiscounts quantities
      ≤ objective (patternSearch initialDiscounts quantities retailPrices supplierCosts
          operationalCosts targetMargin maxDiscount transportCost epsilon maxIterations)
          quantities :=
  patternSearchAux_feasible_mono quantities retailPrices supplierCosts operationalCosts
    targetMargin maxDiscount transportCost epsilon maxIterations initialDiscounts _ hseed

/-- Witness: one product, quantity 1, retail price 1, no costs, seed vector 0,
the route's default `epsilon = 1e-4` and `maxIterations = 1000`. -/
theorem patternSearch_feasible_monotone_witness :
    0 ≤ marginConstraint (patternSearch (fun _ : Fin 1 => (0:ℚ)) (fun _ => 1) (fun _ => 1)
        (fun _ => 0) (fun _ => 0) 0 (1/2) 0 (1/10000) 1000) (fun _ => 1) (fun _ => 1)
        (fun _ => 0) (fun _ => 0) 0 0
    ∧ objective (fun _ : Fin 1 => (0:ℚ)) (fun _ => 1)
      ≤ objective (patternSearch (fun _ : Fin 1 => (0:ℚ)) (fun _ => 1) (fun _ => 1)
          (fun _ => 0) (fun _ => 0) 0 (1/2) 0 (1/10000) 1000) (fun _ => 1) :=
  patternSearch_feasible_monotone (fun _ : Fin 1 => (0:ℚ)) (fun _ => 1) (fun _ => 1)
    (fun _ => 0) (fun _ => 0) 0 (1/2) 0 (1/10000) 1000 (fun _ => by norm_num)
    (fun _ => by norm_num) (by norm_num) (by norm_num)
    (by norm_num [marginConstraint, Fin.sum_univ_one])

/-- Clamping into `[0, upper]` lands in `[0, upper]` when `0 ≤ upper`. -/
lemma clamp_mem (x upper : ℚ) (h : 0 ≤ upper) :
    0 ≤ clamp x 0 upper ∧ clamp x 0 upper ≤ upper := by
  unfold clamp
  exact ⟨le_min (le_max_right x 0) h, min_le_right _ _⟩

/-- A coordinate probe keeps the vector inside the box `[0, maxDiscount]^n`. -/
lemma innerStep_bounds {n : ℕ}
    (quantities retailPrices supplierCosts operationalCosts : Fin n → ℚ)
    (targetMargin maxDiscount transportCost : ℚ) (delta : Fin n → ℚ)
    (st : (Fin n → ℚ) × Bool) (i : Fin n) (hmd : 0 ≤ maxDiscount)
    (h : ∀ j, 0 ≤ st.1 j ∧ st.1 j ≤ maxDiscount) :
    ∀ j, 0 ≤ (innerStep quantities retailPrices supplierCosts operationalCosts targetMargin
        maxDiscount transportCost delta st i).1 j
      ∧ (innerStep quantities retailPrices supplierCosts operationalCosts targetMargin
          maxDiscount transportCost delta st i).1 j ≤ maxDiscount := by
  unfold innerStep
  dsimp only
  split_ifs with h1 h2
  · dsimp only
    intro j
    rcases eq_or_ne j i with rfl | hne
    · rw [Function.update_same]; exact clamp_mem _ _ hmd
    · rw [Function.update_noteq hne]; exact h j
  · dsimp only
    intro j
    rcases eq_or_ne j i with rfl | hne
    · rw [Function.update_same]; exact clamp_mem _ _ hmd
    · rw [Function.update_noteq hne]; exact h j
  · exact h

/-- One outer iteration keeps the vector inside the box `[0, maxDiscount]^n`. -/
lemma patternStep_bounds {n : ℕ}
    (quantities retailPrices supplierCosts operationalCosts : Fin n → ℚ)
    (targetMargin maxDiscount transportCost : ℚ) (discounts delta : Fin n → ℚ)
    (hmd : 0 ≤ maxDiscount) (h : ∀ j, 0 ≤ discounts j ∧ discounts j ≤ maxDiscount) :
    ∀ j, 0 ≤ (patternStep quantities retailPrices supplierCosts operationalCosts targetMargin
        maxDiscount transportCost discounts delta).1 j
      ∧ (patternStep quantities retailPrices supplierCosts operationalCosts targetMargin
          maxDiscount transportCost discounts delta).1 j ≤ maxDiscount := by
  have hsweep := foldl_invariant
    (innerStep quantities retailPrices supplierCosts operationalCosts targetMargin
      maxDiscount transportCost delta)
    (fun st => ∀ j, 0 ≤ st.1 j ∧ st.1 j ≤ maxDiscount)
    (fun st i hst => innerStep_bounds quantities retailPrices supplierCosts operationalCosts
      targetMargin maxDiscount transportCost delta st i hmd hst)
    (List.finRange n) (discounts, false) h
  unfold patternStep
  dsimp only
  split_ifs with h1 h2
  · intro j; exact clamp_mem _ _ hmd
  · exact hsweep
  · exact h

/-- The whole pattern-search loop keeps the vector inside the box. -/
lemma patternSearchAux_bounds {n : ℕ}
    (quantities retailPrices supplierCosts operationalCosts : Fin n → ℚ)
    (targetMargin maxDiscount transportCost epsilon : ℚ) (hmd : 0 ≤ maxDiscount) :
    ∀ (fuel : ℕ) (discounts delta : Fin n → ℚ),
      (∀ j, 0 ≤ discounts j ∧ discounts j ≤ maxDiscount) →
      ∀ j, 0 ≤ patternSearchAux quantities retailPrices supplierCosts operationalCosts
          targetMargin maxDiscount transportCost epsilon fuel discounts delta j
        ∧ patternSearchAux quantities retailPrices supplierCosts operationalCosts targetMargin
            maxDiscount transportCost epsilon fuel discounts delta j ≤ maxDiscount := by
  intro fuel
  induction fuel with
  | zero =>
      intro discounts delta h
      rw [patternSearchAux]
      exact h
  | succ fuel ih =>
      intro discounts delta h
      simp only [patternSearchAux]
      have hp := patternStep_bounds quantities retailPrices supplierCosts operationalCosts
        targetMargin maxDiscount transportCost discounts delta hmd h
      split_ifs with h1
      · exact hp
      · exact ih _ _ hp

/-- A successful fallback result is the random vector of some attempt. -/
lemma randomFallback_eq_some_shape {n : ℕ}
    (quantities retailPrices supplierCosts operationalCosts : Fin n → ℚ)
    (targetMargin transportCost : ℚ) (rand : ℕ → Fin n → ℚ) :
    ∀ (fuel attempt : ℕ) (v : Fin n → ℚ),
      randomFallback quantities retailPrices supplierCosts operationalCosts targetMargin
        transportCost rand attempt fuel = some v → ∃ a, v = smallVec rand a := by
  intro fuel
  induction fuel with
  | zero => intro attempt v h; exact absurd h (by rw [randomFallback]; simp)
  | succ fuel ih =>
      intro attempt v h
      rw [randomFallback] at h
      split_ifs at h with h1
      · exact ⟨attempt, (Option.some_inj.mp h).symm⟩
      · exact ih (attempt + 1) v h

/-- Every component returned by `chaoticInitialization` lies in
`[0, max maxDiscount 0.05]` when the random oracle draws in `[0,1)`. -/
lemma chaoticInitialization_mem {n : ℕ} (numIterations : ℕ) (maxDiscount : ℚ)
    (quantities retailPrices supplierCosts operationalCosts : Fin n → ℚ)
    (targetMargin transportCost : ℚ) (rand : ℕ → Fin n → ℚ)
    (hmd : 0 ≤ maxDiscount) (hrand : ∀ a i, 0 ≤ rand a i ∧ rand a i < 1)
    (d : Fin n → ℚ)
    (hd : chaoticInitialization numIterations maxDiscount quantities retailPrices
      supplierCosts operationalCosts targetMargin transportCost rand = some d) :
    ∀ i, 0 ≤ d i ∧ d i ≤ max maxDiscount (5/100) := by
  rw [chaoticInitialization] at hd
  cases hbest : chaoticBest numIterations maxDiscount quantities retailPrices supplierCosts
      operationalCosts targetMargin transportCost with
  | some b =>
      rw [hbest] at hd
      intro i
      have := chaoticBest_mem numIterations maxDiscount quantities retailPrices supplierCosts
        operationalCosts targetMargin transportCost hmd b hbest i
      rw [← Option.some_inj.mp hd]
      exact ⟨this.1, this.2.trans (le_max_left _ _)⟩
  | none =>
      rw [hbest] at hd
      cases hrf : randomFallback quantities retailPrices supplierCosts operationalCosts
          targetMargin transportCost rand 0 100 with
      | some v =>
          rw [hrf] at hd
          obtain ⟨a, ha⟩ := randomFallback_eq_some_shape quantities retailPrices supplierCosts
            operationalCosts targetMargin transportCost rand 100 0 v hrf
          intro i
          rw [← Option.some_inj.mp hd, ha]
          unfold smallVec
          constructor
          · exact mul_nonneg (hrand a i).1 (by norm_num)
          · refine le_trans ?_ (le_max_right maxDiscount (5/100))
            have := (hrand a i).2
            nlinarith
      | none =>
          rw [hrf] at hd
          split_ifs at hd with hz
          intro i
          rw [← Option.some_inj.mp hd]
          exact ⟨le_refl 0, le_max_of_le_left hmd⟩

/-- C2 (amended): every component returned by `chaoticInitialization` lies in
`[0, max maxDiscount 0.05]` — the random fallback draws in `[0, 0.05)`, which
exceeds `maxDiscount` when `maxDiscount < 0.05` — and `patternSearch` keeps
every component within `[0, maxDiscount]` whenever its seed lies in that
box. -/
theorem discount_bounds_amended :
    (∀ (n numIterations : ℕ) (maxDiscount : ℚ)
        (quantities retailPrices supplierCosts operationalCosts : Fin n → ℚ)
        (targetMargin transportCost : ℚ) (rand : ℕ → Fin n → ℚ),
      0 ≤ maxDiscount → (∀ a i, 0 ≤ rand a i ∧ rand a i < 1) →
      ∀ d, chaoticInitialization numIterations maxDiscount quantities retailPrices
          supplierCosts operationalCosts targetMargin transportCost rand = some d →
        ∀ i, 0 ≤ d i ∧ d i ≤ max maxDiscount (5/100)) ∧
    (∀ (n : ℕ) (initialDiscounts quantities retailPrices supplierCosts operationalCosts :
        Fin n → ℚ) (targetMargin maxDiscount transportCost epsilon : ℚ)
        (maxIterations : ℕ),
      0 ≤ maxDiscount →
      (∀ i, 0 ≤ initialDiscounts i ∧ initialDiscounts i ≤ maxDiscount) →
      ∀ i, 0 ≤ patternSearch initialDiscounts quantities retailPrices supplierCosts
          operationalCosts targetMargin maxDiscount transportCost epsilon maxIterations i
        ∧ patternSearch initialDiscounts quantities retailPrices supplierCosts
            operationalCosts targetMargin maxDiscount transportCost epsilon maxIterations i
          ≤ maxDiscount) := by
  constructor
  · intro n numIterations maxDiscount quantities retailPrices supplierCosts operationalCosts
      targetMargin transportCost rand hmd hrand d hd
    exact chaoticInitialization_mem numIterations maxDiscount quantities retailPrices
      supplierCosts operationalCosts targetMargin transportCost rand hmd hrand d hd
  · intro n initialDiscounts quantities retailPrices supplierCosts operationalCosts
      targetMargin maxDiscount transportCost epsilon maxIterations hmd hseed
    exact patternSearchAux_bounds quantities retailPrices supplierCosts operationalCosts
      targetMargin maxDiscount transportCost epsilon hmd maxIterations initialDiscounts _
      hseed

/-- Witness: both bounds at a concrete instance — the chaotic initializer run
with no chaotic iterations, oracle constantly `1/2` and `maxDiscount = 1/2`
(it returns the first random vector), and the pattern search run from the zero
seed with the route defaults. -/
theorem discount_bounds_amended_witness :
    (0 ≤ smallVec (n := 1) (fun _ _ => (1/2:ℚ)) 0 0
      ∧ smallVec (n := 1) (fun _ _ => (1/2:ℚ)) 0 0 ≤ max (1/2) (5/100)) ∧
    (0 ≤ patternSearch (fun _ : Fin 1 => (0:ℚ)) (fun _ => 1) (fun _ => 1) (fun _ => 0)
        (fun _ => 0) 0 (1/2) 0 (1/10000) 1000 0
      ∧ patternSearch (fun _ : Fin 1 => (0:ℚ)) (fun _ => 1) (fun _ => 1) (fun _ => 0)
          (fun _ => 0) 0 (1/2) 0 (1/10000) 1000 0 ≤ 1/2) :=
  ⟨discount_bounds_amended.1 1 0 (1/2) (fun _ => 1) (fun _ => 1) (fun _ => 0) (fun _ => 0)
      0 0 (fun _ _ => 1/2) (by norm_num) (fun a i => ⟨by norm_num, by norm_num⟩)
      (smallVec (fun _ _ => (1/2:ℚ)) 0)
      (chaoticInitialization_first_random 0 (1/2) (fun _ => 1) (fun _ => 1) (fun _ => 0)
        (fun _ => 0) 0 0 (fun _ _ => 1/2) (by simp [chaoticBest])
        (by norm_num [marginConstraint, smallVec, Fin.sum_univ_one])) 0,
   discount_bounds_amended.2 1 (fun _ => 0) (fun _ => 1) (fun _ => 1) (fun _ => 0)
      (fun _ => 0) 0 (1/2) 0 (1/10000) 1000 (by norm_num)
      (fun i => ⟨le_refl 0, by norm_num⟩) 0⟩

/-- C2 counterexample: with `maxDiscount = 1/100` (a valid value in `[0,1]`),
no chaotic iterations and a random oracle drawing `4/5`, the first fallback
attempt is feasible and is returned, yet its component `4/5 * 0.05 = 1/25`
exceeds `maxDiscount`. -/
theorem chaoticInitialization_exceeds_maxDiscount :
    ((0:ℚ) ≤ 1/100 ∧ (1/100:ℚ) ≤ 1 ∧ (0:ℚ) < 1 ∧ (0:ℚ) < 1) ∧
    chaoticInitialization (n := 1) 0 (1/100) (fun _ => 1) (fun _ => 1) (fun _ => 0)
      (fun _ => 0) 0 0 (fun _ _ => 4/5) = some (smallVec (fun _ _ => (4/5:ℚ)) 0) ∧
    smallVec (n := 1) (fun _ _ => (4/5:ℚ)) 0 0 = 1/25 ∧
    ¬ ((1/25 : ℚ) ≤ 1/100) := by
  refine ⟨⟨by norm_num, by norm_num, by norm_num, by norm_num⟩, ?_,
    by norm_num [smallVec], by norm_num⟩
  exact chaoticInitialization_first_random 0 (1/100) (fun _ => 1) (fun _ => 1) (fun _ => 0)
    (fun _ => 0) 0 0 (fun _ _ => 4/5) (by simp [chaoticBest])
    (by norm_num [marginConstraint, smallVec, Fin.sum_univ_one])

/-- C5: when the all-zero discount vector is infeasible under the computed
transport cost, the optimize handler terminates with the
infeasible-with-current-parameters report, whatever the random oracle of the
search stages — the search stages do not influence the result. -/
theorem optimizeCore_infeasibleAtZero {n : ℕ}
    (quantities volumePerUnit weightPerUnit retailPrices supplierCosts
      operationalCosts : Fin n → ℚ)
    (targetMargin maxDiscount distanceKm costPerKm numHouseholds truckVolume
      truckWeight : ℚ)
    (hz : marginConstraint (fun _ => 0) quantities retailPrices supplierCosts
        operationalCosts targetMargin
        ((calculateTrucksRequired quantities volumePerUnit weightPerUnit truckVolume
          truckWeight : ℚ) * costPerKm * distanceKm) < 0) :
    ∀ rand, optimizeCore quantities volumePerUnit weightPerUnit retailPrices supplierCosts
        operationalCosts targetMargin maxDiscount distanceKm costPerKm numHouseholds
        truckVolume truckWeight rand = OptimizeOutcome.infeasibleAtZero := by
  intro rand
  simp only [optimizeCore]
  rw [if_pos hz]

/-- Witness: one product with supplier cost above its retail value; one truck
at the route's default 55/km over 10 km makes the zero vector infeasible. -/
theorem optimizeCore_infeasibleAtZero_witness :
    optimizeCore (n := 1) (fun _ => 1) (fun _ => 1) (fun _ => 1) (fun _ => 1) (fun _ => 2)
      (fun _ => 0) 0 (1/2) 10 55 50 15 3000 (fun _ _ => 0)
      = OptimizeOutcome.infeasibleAtZero :=
  optimizeCore_infeasibleAtZero (fun _ => 1) (fun _ => 1) (fun _ => 1) (fun _ => 1)
    (fun _ => 2) (fun _ => 0) 0 (1/2) 10 55 50 15 3000
    (by
      have hc1 : ⌈(1/15:ℚ)⌉ = 1 := by rw [Int.ceil_eq_iff] <;> norm_num
      have hc2 : ⌈(1/3000:ℚ)⌉ = 1 := by rw [Int.ceil_eq_iff] <;> norm_num
      norm_num [marginConstraint, calculateTrucksRequired_eq, Fin.sum_univ_one, hc1, hc2])
    (fun _ _ => 0)

/-- Whenever the all-zero vector is feasible, `chaoticInitialization` cannot
return the sentinel: its final fallback tests that very vector. -/
lemma chaoticInitialization_ne_none_of_zero_feasible {n : ℕ} (numIterations : ℕ)
    (maxDiscount : ℚ)
    (quantities retailPrices supplierCosts operationalCosts : Fin n → ℚ)
    (targetMargin transportCost : ℚ) (rand : ℕ → Fin n → ℚ)
    (hz : 0 ≤ marginConstraint (fun _ => 0) quantities retailPrices supplierCosts
      operationalCosts targetMargin transportCost) :
    chaoticInitialization numIterations maxDiscount quantities retailPrices supplierCosts
      operationalCosts targetMargin transportCost rand ≠ none := by
  rw [chaoticInitialization]
  cases hbest : chaoticBest numIterations maxDiscount quantities retailPrices supplierCosts
      operationalCosts targetMargin transportCost with
  | some b => simp
  | none =>
      dsimp only
      cases hrf : randomFallback quantities retailPrices supplierCosts operationalCosts
          targetMargin transportCost rand 0 100 with
      | some v => simp
      | none => rw [if_pos hz]; simp

/-- C10: the "No feasible solution found in initialization stage" branch of
the optimize handler is unreachable: when the all-zero vector is feasible,
`chaoticInitialization` (the same constraint, same arguments) never returns
`null`, and consequently `optimizeCore` never produces the
initialization-failure report. -/
theorem optimizeCore_noFeasibleInit_unreachable :
    (∀ (n numIterations : ℕ) (maxDiscount : ℚ)
        (quantities retailPrices supplierCosts operationalCosts : Fin n → ℚ)
        (targetMargin transportCost : ℚ) (rand : ℕ → Fin n → ℚ),
      0 ≤ marginConstraint (fun _ => 0) quantities retailPrices supplierCosts
        operationalCosts targetMargin transportCost →
      chaoticInitialization numIterations maxDiscount quantities retailPrices supplierCosts
        operationalCosts targetMargin transportCost rand ≠ none) ∧
    (∀ (n : ℕ) (quantities volumePerUnit weightPerUnit retailPrices supplierCosts
        operationalCosts : Fin n → ℚ)
        (targetMargin maxDiscount distanceKm costPerKm numHouseholds truckVolume
          truckWeight : ℚ) (rand : ℕ → Fin n → ℚ),
      optimizeCore quantities volumePerUnit weightPerUnit retailPrices supplierCosts
        operationalCosts targetMargin maxDiscount distanceKm costPerKm numHouseholds
        truckVolume truckWeight rand ≠ OptimizeOutcome.noFeasibleInit) := by
  constructor
  · intro n numIterations maxDiscount quantities retailPrices supplierCosts operationalCosts
      targetMargin transportCost rand hz
    exact chaoticInitialization_ne_none_of_zero_feasible numIterations maxDiscount quantities
      retailPrices supplierCosts operationalCosts targetMargin transportCost rand hz
  · intro n quantities volumePerUnit weightPerUnit retailPrices supplierCosts
      operationalCosts targetMargin maxDiscount distanceKm costPerKm numHouseholds
      truckVolume truckWeight rand
    simp only [optimizeCore]
    split_ifs with hz
    · simp
    · push_neg at hz
      cases hinit : chaoticInitialization 1000 maxDiscount quantities retailPrices
          supplierCosts operationalCosts targetMargin
          ((calculateTrucksRequired quantities volumePerUnit weightPerUnit truckVolume
            truckWeight : ℚ) * costPerKm * distanceKm) rand with
      | some init => simp
      | none =>
          exact absurd hinit (chaoticInitialization_ne_none_of_zero_feasible 1000 maxDiscount
            quantities retailPrices supplierCosts operationalCosts targetMargin _ rand hz)

/-- Witness: the first conjunct at a concrete feasible-at-zero instance. -/
theorem optimizeCore_noFeasibleInit_unreachable_witness :
    chaoticInitialization (n := 1) 0 (1/2) (fun _ => 1) (fun _ => 1) (fun _ => 0)
      (fun _ => 0) 0 0 (fun _ _ => 0) ≠ none :=
  optimizeCore_noFeasibleInit_unreachable.1 1 0 (1/2) (fun _ => 1) (fun _ => 1)
    (fun _ => 0) (fun _ => 0) 0 0 (fun _ _ => 0)
    (by norm_num [marginConstraint, Fin.sum_univ_one])

/-- C9 (amended): when the assembled response's final margin falls below 95%
of the target, the handler emits a console warning — a server-side log — while
still assembling and returning the success response; no key of the JSON result
carries a warning flag. -/
theorem marginWarning_logged_not_in_response {n : ℕ}
    (optimalDiscounts quantities retailPrices supplierCosts operationalCosts
      volumePerUnit weightPerUnit : Fin n → ℚ)
    (targetMargin maxDiscount distanceKm costPerKm numHouseholds : ℚ)
    (numTrucks : ℤ) (transportCost : ℚ)
    (hwarn : (buildResult optimalDiscounts quantities retailPrices supplierCosts
        operationalCosts volumePerUnit weightPerUnit targetMargin maxDiscount distanceKm
        costPerKm numHouseholds numTrucks transportCost).finalMargin
      < targetMargin * (95/100)) :
    consoleWarnedLowMargin (buildResult optimalDiscounts quantities retailPrices
        supplierCosts operationalCosts volumePerUnit weightPerUnit targetMargin maxDiscount
        distanceKm costPerKm numHouseholds numTrucks transportCost).finalMargin targetMargin
      = true
    ∧ responseMentionsWarning = false :=
  ⟨decide_eq_true hwarn, by decide⟩

/-- Witness: one product sold at cost-heavy prices, discount 0: the final
margin 1/10 is below 95% of the 1/2 target. -/
theorem marginWarning_logged_not_in_response_witness :
    consoleWarnedLowMargin (buildResult (fun _ : Fin 1 => (0:ℚ)) (fun _ => 1)
        (fun _ => 100) (fun _ => 80) (fun _ => 10) (fun _ => 1) (fun _ => 1) (1/2) (1/2)
        10 55 50 1 550).finalMargin (1/2) = true
    ∧ responseMentionsWarning = false :=
  marginWarning_logged_not_in_response (fun _ : Fin 1 => (0:ℚ)) (fun _ => 1) (fun _ => 100)
    (fun _ => 80) (fun _ => 10) (fun _ => 1) (fun _ => 1) (1/2) (1/2) 10 55 50 1 550
    (by norm_num [buildResult, Fin.sum_univ_one])

/-- C9 counterexample: a concrete successful computation whose final margin
(1/10) is below 95% of the target (1/2) — so the claim requires a warning in
the returned result — yet no key of the response mentions a warning; the
warning exists only as a console log. -/
theorem marginWarning_absent_counterexample :
    (buildResult (fun _ : Fin 1 => (0:ℚ)) (fun _ => 1) (fun _ => 100) (fun _ => 80)
      (fun _ => 10) (fun _ => 1) (fun _ => 1) (1/2) (1/2) 10 55 50 1 550).finalMargin
      = 1/10
    ∧ ((1/10 : ℚ) < (1/2) * (95/100))
    ∧ responseMentionsWarning = false := by
  refine ⟨?_, by norm_num, by decide⟩
  norm_num [buildResult, Fin.sum_univ_one]

end LastMile

